import Mathlib

/-!
Shallow embedding of the Conan build recipe in `conanfile.py` of the
repository `wagk/shiny` (class `ShinyConan`), together with theorems
checking the natural-language specification against it.

The recipe is declarative: class attributes (name, version, license, url,
description, settings, options, default options, generators) and five
methods (`requirements`, `source`, `build`, `package`, `package_info`).
Each method is embedded as the list of external actions it performs, as a
function of the option assignment (the Python methods receive `self`,
which carries the option values, so each embedded step takes the option
record even when it ignores it).
-/

/-- The recipe's single configurable option surface: the `options`
attribute maps the one option name "shared" to the allowed values True and
False.  An `Opts` value is one assignment of the recipe's options. -/
structure Opts where
  shared : Bool
deriving DecidableEq, Repr

/-- One call to `self.copy(pattern, dst=..., src=..., keep_path=...)` in
the `package` method.  `src` is the list of path components of the source
subdirectory the rule is restricted to (`[]` when the `src` argument is
absent, meaning the whole build folder); `keepPath` mirrors `keep_path`
(Conan's default is `True`). -/
structure CopyRule where
  pattern : String
  dst : String
  src : List String
  keepPath : Bool
deriving DecidableEq, Repr

/-- An external action performed by a recipe step: registering a remote
channel (`conan remote add`), declaring a dependency (`self.requires`),
running a shell command (`self.run`), invoking MSBuild (`msbuild.build`),
or executing one copy rule (`self.copy`). -/
inductive RecipeAction where
  | remoteAdd (channel url : String)
  | requireRef (ref : String)
  | run (cmd : String)
  | msbuild (sln : String)
  | copyGlob (rule : CopyRule)
deriving DecidableEq, Repr

namespace ShinyConan

/-- Class attribute `name` (conanfile.py line 5). -/
def name : String := "shiny"

/-- Class attribute `version` (line 6). -/
def version : String := "0.1"

/-- Class attribute `license` (line 7). -/
def license : String := "MIT"

/-- Class attribute `url` (line 8). -/
def url : String := "https://github.com/wagk/shiny.git"

/-- Class attribute `description` (line 9). -/
def description : String := "Simple Vulkan Game Engine"

/-- Class attribute `settings` (line 10). -/
def settings : List String := ["os", "compiler", "build_type", "arch"]

/-- Class attribute `options` (line 11), as a list of (option name,
allowed values) pairs: the single option "shared" with values True and
False. -/
def optionsDecl : List (String × List Bool) := [("shared", [true, false])]

/-- Class attribute `default_options` (line 12), the string "shared=False"
parsed as a list of (option name, default value) pairs. -/
def defaultOptions : List (String × Bool) := [("shared", false)]

/-- Class attribute `generators` (line 13). -/
def generators : String := "visual_studio"

/-- The package metadata attributes of the class as (attribute, value)
pairs, in source order (lines 5-9). -/
def metaAttrsOf (_ : Opts) : List (String × String) :=
  [("name", name), ("version", version), ("license", license),
   ("url", url), ("description", description)]

/-- Method `requirements` (lines 15-19): one `call("conan remote add
--force bincrafters https://api.bintray.com/conan/bincrafters/public-conan")`
followed by three `self.requires(...)` declarations. -/
def requirements (_ : Opts) : List RecipeAction :=
  [RecipeAction.remoteAdd "bincrafters" "https://api.bintray.com/conan/bincrafters/public-conan",
   RecipeAction.requireRef "conan-glfw/3.2.1@bincrafters/stable",
   RecipeAction.requireRef "conan-glm/0.9.8.5@bincrafters/stable",
   RecipeAction.requireRef "vulkan-sdk/1.0.46.0@alaingalvan/stable"]

/-- Method `source` (lines 21-22): a single
`self.run("git clone https://github.com/wagk/shiny.git .")`. -/
def source (_ : Opts) : List RecipeAction :=
  [RecipeAction.run "git clone https://github.com/wagk/shiny.git ."]

/-- Method `build` (lines 24-26): `MSBuild(self)` then
`msbuild.build("shiny.sln")` (the commented-out cmake lines do nothing). -/
def build (_ : Opts) : List RecipeAction :=
  [RecipeAction.msbuild "shiny.sln"]

/-- The six copy rules of method `package` (lines 33-39), in source order.
The header rule passes `src="hello"` and leaves `keep_path` at its default
`True`; the five library rules pass `keep_path=False` and no `src`. -/
def packageRulesOf (_ : Opts) : List CopyRule :=
  [⟨"*.h", "include", ["hello"], true⟩,
   ⟨"*hello.lib", "lib", [], false⟩,
   ⟨"*.dll", "bin", [], false⟩,
   ⟨"*.so", "lib", [], false⟩,
   ⟨"*.dylib", "lib", [], false⟩,
   ⟨"*.a", "lib", [], false⟩]

/-- Method `package` as a list of actions: one `copyGlob` per copy rule. -/
def package (o : Opts) : List RecipeAction :=
  (packageRulesOf o).map RecipeAction.copyGlob

/-- Method `package_info` (lines 41-42): `self.cpp_info.libs = ["hello"]`,
the list of exported link targets. -/
def cpp_info_libs (_ : Opts) : List String := ["hello"]

/-- The whole recipe invocation after dependency resolution: the `source`,
`build` and `package` steps in order. -/
def recipeActions (o : Opts) : List RecipeAction :=
  source o ++ build o ++ package o

end ShinyConan

/-! ## Semantics of the copy rules

Conan's `self.copy(pattern, dst, src, keep_path)` scans the build folder
for files whose relative path lies under `src` and whose file name matches
the fnmatch `pattern`, and copies each match to `dst`, preserving the path
relative to `src` when `keep_path` is true and flattening to the bare file
name otherwise.  A file is a list of directory components plus a base
name; every pattern in this recipe is `*` followed by a literal suffix. -/

/-- A file in the build folder, as its directory components relative to
the build folder plus its base name. -/
structure SrcFile where
  dirs : List String
  base : String
deriving DecidableEq, Repr

/-- Is the first character list an initial segment of the second? -/
def chPre : List Char → List Char → Bool
  | [], _ => true
  | _ :: _, [] => false
  | a :: as, b :: bs => a == b && chPre as bs

/-- Is the first character list a final segment of the second? -/
def chSuffix (s b : List Char) : Bool := chPre s.reverse b.reverse

/-- Does string `b` end with the string `suf`? -/
def endsWithS (b suf : String) : Bool := chSuffix suf.data b.data

/-- The characters after a leading `*` of an fnmatch pattern, if the
pattern is a `*` followed by a literal suffix. -/
def starSuffix (pat : String) : Option (List Char) :=
  match pat.data with
  | '*' :: rest => some rest
  | _ => none

/-- Does fnmatch pattern `pat` accept file name `b`?  Every pattern used
by the recipe is a `*` followed by a literal suffix; other patterns are
treated as literal names. -/
def matchPat (pat b : String) : Bool :=
  match starSuffix pat with
  | some suf => chSuffix suf b.data
  | none => b == pat

/-- Is the first component list an initial segment of the second?  Used to
test whether a file lies under a rule's `src` subdirectory. -/
def dirUnder : List String → List String → Bool
  | [], _ => true
  | _ :: _, [] => false
  | a :: as, b :: bs => a == b && dirUnder as bs

/-- Does copy rule `r` select file `f`?  The file must lie under the
rule's `src` subdirectory and its base name must match the rule's
pattern. -/
def copies (r : CopyRule) (f : SrcFile) : Bool :=
  dirUnder r.src f.dirs && matchPat r.pattern f.base

/-- The destination path (components, head = destination directory) that
rule `r` gives to a file `f` it selects. -/
def destOf (r : CopyRule) (f : SrcFile) : List String :=
  r.dst :: (if r.keepPath then (f.dirs.drop r.src.length) ++ [f.base] else [f.base])

/-- All destination paths the `package` step produces for file `f`: one
per copy rule that selects `f`. -/
def packageDests (o : Opts) (f : SrcFile) : List (List String) :=
  (ShinyConan.packageRulesOf o).filterMap
    (fun r => if copies r f then some (destOf r f) else none)

/-! ## Semantics of a recipe invocation and its failures

Each step shells out to an external tool, and the recipe defines no
handler: an exception from any action aborts the Python method and hence
the whole invocation.  We model an environment as a predicate `ok` saying
which external actions succeed, run the actions in order, and stop at the
first failure, reporting it. -/

/-- Run a list of actions in order under environment `ok`; the first
failing action aborts the run and is reported as the error. -/
def runActs (ok : RecipeAction → Bool) : List RecipeAction → Except RecipeAction Unit
  | [] => Except.ok ()
  | a :: as =>
    match ok a with
    | true => runActs ok as
    | false => Except.error a

/-- The actions actually attempted when running a list under `ok`: all of
them up to and including the first failure. -/
def attemptsOf (ok : RecipeAction → Bool) : List RecipeAction → List RecipeAction
  | [] => []
  | a :: as =>
    match ok a with
    | true => a :: attemptsOf ok as
    | false => [a]

/-- One whole recipe invocation (source, build, package in order) under
environment `ok`. -/
def runRecipe (o : Opts) (ok : RecipeAction → Bool) : Except RecipeAction Unit :=
  runActs ok (ShinyConan.recipeActions o)

/-! ## Dependency reference parsing -/

/-- Is action `a` the registration of a package channel? -/
def isRemoteAdd : RecipeAction → Bool
  | RecipeAction.remoteAdd _ _ => true
  | _ => false

/-- The dependency reference string of a `requireRef` action, if any. -/
def refOf : RecipeAction → Option String
  | RecipeAction.requireRef r => some r
  | _ => none

/-- Split a character list at every occurrence of the separator. -/
def splitChars (sep : Char) : List Char → List (List Char)
  | [] => [[]]
  | c :: cs =>
    let r := splitChars sep cs
    if c == sep then [] :: r
    else
      match r with
      | [] => [[c]]
      | h :: t => (c :: h) :: t

/-- Parse a Conan reference of the form name/version@user/channel into the
triple (name, version, distribution channel), where the distribution
channel is the user/channel pair. -/
def parseRef (s : String) : Option (String × String × String) :=
  match splitChars '/' s.data with
  | [n, vu, c] =>
    match splitChars '@' vu with
    | [v, u] => some (String.mk n, String.mk v, String.mk (u ++ '/' :: c))
    | _ => none
  | _ => none

/-- Is `v` a fixed (exact) version: nonempty and made only of digits and
dots, hence free of range, wildcard and comparison syntax? -/
def fixedVersion (v : String) : Bool :=
  !v.data.isEmpty && v.data.all (fun c => c.isDigit || c == '.')

/-- Does reference string `r` carry a fixed version? -/
def fixedRefVersion (r : String) : Bool :=
  match parseRef r with
  | some (_, v, _) => fixedVersion v
  | none => false

/-! ## Helper lemmas -/

lemma matchPat_h (b : String) : matchPat "*.h" b = endsWithS b ".h" := rfl

lemma matchPat_helloLib (b : String) :
    matchPat "*hello.lib" b = endsWithS b "hello.lib" := rfl

lemma matchPat_dll (b : String) :
    matchPat "*.dll" b = endsWithS b ".dll" := rfl

lemma matchPat_so (b : String) : matchPat "*.so" b = endsWithS b ".so" := rfl

lemma matchPat_dylib (b : String) :
    matchPat "*.dylib" b = endsWithS b ".dylib" := rfl

lemma matchPat_a (b : String) : matchPat "*.a" b = endsWithS b ".a" := rfl

lemma dirUnder_nil (l : List String) : dirUnder [] l = true := rfl

/-- Membership in the destinations of the `package` step, characterised
rule by rule. -/
lemma mem_packageDests (o : Opts) (f : SrcFile) (d : List String) :
    d ∈ packageDests o f ↔
      (dirUnder ["hello"] f.dirs = true ∧ endsWithS f.base ".h" = true ∧
        d = "include" :: (f.dirs.drop 1 ++ [f.base]))
    ∨ (endsWithS f.base "hello.lib" = true ∧ d = ["lib", f.base])
    ∨ (endsWithS f.base ".dll" = true ∧ d = ["bin", f.base])
    ∨ (endsWithS f.base ".so" = true ∧ d = ["lib", f.base])
    ∨ (endsWithS f.base ".dylib" = true ∧ d = ["lib", f.base])
    ∨ (endsWithS f.base ".a" = true ∧ d = ["lib", f.base]) := by
  simp only [packageDests, List.mem_filterMap, Option.ite_none_right_eq_some,
    Option.some.injEq]
  constructor
  · rintro ⟨r, hr, hc, rfl⟩
    have hr6 : r = (⟨"*.h", "include", ["hello"], true⟩ : CopyRule)
        ∨ r = (⟨"*hello.lib", "lib", [], false⟩ : CopyRule)
        ∨ r = (⟨"*.dll", "bin", [], false⟩ : CopyRule)
        ∨ r = (⟨"*.so", "lib", [], false⟩ : CopyRule)
        ∨ r = (⟨"*.dylib", "lib", [], false⟩ : CopyRule)
        ∨ r = (⟨"*.a", "lib", [], false⟩ : CopyRule) := by
      simpa [ShinyConan.packageRulesOf] using hr
    rcases hr6 with rfl | rfl | rfl | rfl | rfl | rfl
    · simp only [copies, matchPat_h, Bool.and_eq_true] at hc
      exact Or.inl ⟨hc.1, hc.2, rfl⟩
    · simp only [copies, matchPat_helloLib, dirUnder_nil, Bool.true_and] at hc
      exact Or.inr (Or.inl ⟨hc, rfl⟩)
    · simp only [copies, matchPat_dll, dirUnder_nil, Bool.true_and] at hc
      exact Or.inr (Or.inr (Or.inl ⟨hc, rfl⟩))
    · simp only [copies, matchPat_so, dirUnder_nil, Bool.true_and] at hc
      exact Or.inr (Or.inr (Or.inr (Or.inl ⟨hc, rfl⟩)))
    · simp only [copies, matchPat_dylib, dirUnder_nil, Bool.true_and] at hc
      exact Or.inr (Or.inr (Or.inr (Or.inr (Or.inl ⟨hc, rfl⟩))))
    · simp only [copies, matchPat_a, dirUnder_nil, Bool.true_and] at hc
      exact Or.inr (Or.inr (Or.inr (Or.inr (Or.inr ⟨hc, rfl⟩))))
  · rintro (⟨h1, h2, rfl⟩ | ⟨h, rfl⟩ | ⟨h, rfl⟩ | ⟨h, rfl⟩ | ⟨h, rfl⟩ | ⟨h, rfl⟩)
    · exact ⟨⟨"*.h", "include", ["hello"], true⟩,
        by simp [ShinyConan.packageRulesOf],
        by simp [copies, matchPat_h, h1, h2], rfl⟩
    · exact ⟨⟨"*hello.lib", "lib", [], false⟩,
        by simp [ShinyConan.packageRulesOf],
        by simp [copies, matchPat_helloLib, dirUnder_nil, h], rfl⟩
    · exact ⟨⟨"*.dll", "bin", [], false⟩,
        by simp [ShinyConan.packageRulesOf],
        by simp [copies, matchPat_dll, dirUnder_nil, h], rfl⟩
    · exact ⟨⟨"*.so", "lib", [], false⟩,
        by simp [ShinyConan.packageRulesOf],
        by simp [copies, matchPat_so, dirUnder_nil, h], rfl⟩
    · exact ⟨⟨"*.dylib", "lib", [], false⟩,
        by simp [ShinyConan.packageRulesOf],
        by simp [copies, matchPat_dylib, dirUnder_nil, h], rfl⟩
    · exact ⟨⟨"*.a", "lib", [], false⟩,
        by simp [ShinyConan.packageRulesOf],
        by simp [copies, matchPat_a, dirUnder_nil, h], rfl⟩

lemma runActs_ok_iff (ok : RecipeAction → Bool) (l : List RecipeAction) :
    runActs ok l = Except.ok () ↔ ∀ a ∈ l, ok a = true := by
  induction l with
  | nil => simp [runActs]
  | cons a as ih =>
    cases h : ok a with
    | false => simp [runActs, h]
    | true => simp [runActs, h, ih]

lemma runActs_error (ok : RecipeAction → Bool) (l : List RecipeAction)
    (a : RecipeAction) (h : runActs ok l = Except.error a) :
    a ∈ l ∧ ok a = false := by
  induction l with
  | nil => simp [runActs] at h
  | cons b bs ih =>
    cases hb : ok b with
    | false =>
      rw [runActs, hb] at h
      simp only [Except.error.injEq] at h
      subst h
      exact ⟨List.mem_cons_self _ _, hb⟩
    | true =>
      rw [runActs, hb] at h
      rcases ih h with ⟨hm, hf⟩
      exact ⟨List.mem_cons_of_mem _ hm, hf⟩

lemma attemptsOf_count (ok : RecipeAction → Bool) (l : List RecipeAction)
    (b : RecipeAction) : (attemptsOf ok l).count b ≤ l.count b := by
  induction l with
  | nil => simp [attemptsOf]
  | cons a as ih =>
    cases h : ok a with
    | false =>
      rw [attemptsOf, h]
      simp only [List.count_cons, List.count_nil]
      omega
    | true =>
      rw [attemptsOf, h]
      simp only [List.count_cons]
      omega

lemma requirements_eq (o : Opts) :
    ShinyConan.requirements o =
      [RecipeAction.remoteAdd "bincrafters" "https://api.bintray.com/conan/bincrafters/public-conan",
       RecipeAction.requireRef "conan-glfw/3.2.1@bincrafters/stable",
       RecipeAction.requireRef "conan-glm/0.9.8.5@bincrafters/stable",
       RecipeAction.requireRef "vulkan-sdk/1.0.46.0@alaingalvan/stable"] := rfl

/-! ## Claim theorems -/

/-- Claim C2: the `requirements` step registers exactly one external
package channel and then declares exactly three dependencies, each a
(name, version, distribution-channel) triple with a fixed, non-range
version. -/
theorem shiny_requirements_shape (o : Opts) :
    ShinyConan.requirements o =
      [RecipeAction.remoteAdd "bincrafters" "https://api.bintray.com/conan/bincrafters/public-conan",
       RecipeAction.requireRef "conan-glfw/3.2.1@bincrafters/stable",
       RecipeAction.requireRef "conan-glm/0.9.8.5@bincrafters/stable",
       RecipeAction.requireRef "vulkan-sdk/1.0.46.0@alaingalvan/stable"]
  ∧ ((ShinyConan.requirements o).filter isRemoteAdd).length = 1
  ∧ ((ShinyConan.requirements o).filterMap refOf).length = 3
  ∧ ((ShinyConan.requirements o).filterMap refOf).map parseRef =
      [some ("conan-glfw", "3.2.1", "bincrafters/stable"),
       some ("conan-glm", "0.9.8.5", "bincrafters/stable"),
       some ("vulkan-sdk", "1.0.46.0", "alaingalvan/stable")]
  ∧ ((ShinyConan.requirements o).filterMap refOf).all fixedRefVersion = true := by
  rw [requirements_eq]
  refine ⟨rfl, ?_, ?_, ?_, ?_⟩ <;> decide

/-- Witness for C2: the channel and dependency counts at the default
option assignment. -/
theorem shiny_requirements_shape_witness :
    ((ShinyConan.requirements ⟨false⟩).filter isRemoteAdd).length = 1
  ∧ ((ShinyConan.requirements ⟨false⟩).filterMap refOf).length = 3 :=
  ⟨(shiny_requirements_shape ⟨false⟩).2.1,
   (shiny_requirements_shape ⟨false⟩).2.2.1⟩

/-- Claim C4: the recipe exports exactly one link target name: the list of
exported link libraries has length one. -/
theorem shiny_one_link_target (o : Opts) :
    (ShinyConan.cpp_info_libs o).length = 1 := rfl

/-- Witness for C4: the length evaluated at the default option
assignment. -/
theorem shiny_one_link_target_witness :
    (ShinyConan.cpp_info_libs ⟨false⟩).length = 1 :=
  shiny_one_link_target ⟨false⟩

/-- Claim C5: the `source` step clones the remote repository at the
package's declared url into the current build source directory, and
performs no other action. -/
theorem shiny_source_clones_url (o : Opts) :
    ShinyConan.source o =
      [RecipeAction.run ("git clone " ++ ShinyConan.url ++ " .")]
  ∧ (ShinyConan.source o).length = 1 := by
  constructor <;> rfl

/-- Witness for C5: the source step at the default option assignment. -/
theorem shiny_source_clones_url_witness :
    ShinyConan.source ⟨false⟩ =
      [RecipeAction.run ("git clone " ++ ShinyConan.url ++ " .")] :=
  (shiny_source_clones_url ⟨false⟩).1

/-- Claim C6: the `build` step invokes MSBuild on the pre-existing
solution file `shiny.sln` and contributes no build logic of its own: it is
exactly that single invocation. -/
theorem shiny_build_msbuild_only (o : Opts) :
    ShinyConan.build o = [RecipeAction.msbuild "shiny.sln"]
  ∧ (ShinyConan.build o).length = 1 := by
  constructor <;> rfl

/-- Witness for C6: the build step at the default option assignment. -/
theorem shiny_build_msbuild_only_witness :
    ShinyConan.build ⟨false⟩ = [RecipeAction.msbuild "shiny.sln"] :=
  (shiny_build_msbuild_only ⟨false⟩).1

/-- Claim C8: the single exported link target is "hello", which differs
from the package's own name "shiny", so the package name never occurs in
the exported link-library list. -/
theorem shiny_link_target_differs_from_name (o : Opts) :
    ShinyConan.cpp_info_libs o = ["hello"]
  ∧ ShinyConan.name = "shiny"
  ∧ "hello" ≠ ShinyConan.name
  ∧ ShinyConan.name ∉ ShinyConan.cpp_info_libs o := by
  refine ⟨rfl, rfl, by decide, ?_⟩
  show ShinyConan.name ∉ (["hello"] : List String)
  decide

/-- Witness for C8: the mismatch at the default option assignment. -/
theorem shiny_link_target_differs_from_name_witness :
    ShinyConan.name ∉ ShinyConan.cpp_info_libs ⟨false⟩ :=
  (shiny_link_target_differs_from_name ⟨false⟩).2.2.2

/-- Claim C1 as stated is false on the code: "x.h" under the directory
"other" matches the pattern of the header rule, yet the `package` step
copies it nowhere, because the header rule is restricted to the "hello"
source subdirectory. -/
theorem shiny_package_layout_cex :
    endsWithS (SrcFile.mk ["other"] "x.h").base ".h" = true
  ∧ ¬ ∃ d ∈ packageDests ⟨false⟩ (SrcFile.mk ["other"] "x.h"),
      d.head? = some "include" := by
  decide

/-- Claim C1 (amended): the `package` step produces the described layout:
every file matching the header pattern that lies under the "hello" source
subdirectory is copied under the include directory; every file matching a
static-library pattern is copied under the lib directory; every shared
library goes by platform extension, dll files under the bin directory and
so/dylib files under the lib directory; and conversely everything placed
under include, bin or lib got there by the corresponding rules. -/
theorem shiny_package_layout (o : Opts) (f : SrcFile) :
    (endsWithS f.base ".h" = true → dirUnder ["hello"] f.dirs = true →
       ∃ d ∈ packageDests o f, d.head? = some "include")
  ∧ (endsWithS f.base "hello.lib" = true ∨ endsWithS f.base ".a" = true →
       ∃ d ∈ packageDests o f, d.head? = some "lib")
  ∧ (endsWithS f.base ".dll" = true →
       ∃ d ∈ packageDests o f, d.head? = some "bin")
  ∧ (endsWithS f.base ".so" = true ∨ endsWithS f.base ".dylib" = true →
       ∃ d ∈ packageDests o f, d.head? = some "lib")
  ∧ (∀ d ∈ packageDests o f,
        (d.head? = some "include" →
           endsWithS f.base ".h" = true ∧ dirUnder ["hello"] f.dirs = true)
      ∧ (d.head? = some "bin" → endsWithS f.base ".dll" = true)
      ∧ (d.head? = some "lib" →
           endsWithS f.base "hello.lib" = true ∨ endsWithS f.base ".a" = true ∨
           endsWithS f.base ".so" = true ∨ endsWithS f.base ".dylib" = true)) := by
  refine ⟨?_, ?_, ?_, ?_, ?_⟩
  · intro h1 h2
    exact ⟨_, (mem_packageDests o f _).mpr (Or.inl ⟨h2, h1, rfl⟩), rfl⟩
  · rintro (h | h)
    · exact ⟨_, (mem_packageDests o f _).mpr (Or.inr (Or.inl ⟨h, rfl⟩)), rfl⟩
    · exact ⟨_, (mem_packageDests o f _).mpr
        (Or.inr (Or.inr (Or.inr (Or.inr (Or.inr ⟨h, rfl⟩))))), rfl⟩
  · intro h
    exact ⟨_, (mem_packageDests o f _).mpr (Or.inr (Or.inr (Or.inl ⟨h, rfl⟩))), rfl⟩
  · rintro (h | h)
    · exact ⟨_, (mem_packageDests o f _).mpr
        (Or.inr (Or.inr (Or.inr (Or.inl ⟨h, rfl⟩)))), rfl⟩
    · exact ⟨_, (mem_packageDests o f _).mpr
        (Or.inr (Or.inr (Or.inr (Or.inr (Or.inl ⟨h, rfl⟩))))), rfl⟩
  · intro d hd
    rw [mem_packageDests] at hd
    rcases hd with ⟨h1, h2, rfl⟩ | ⟨h, rfl⟩ | ⟨h, rfl⟩ | ⟨h, rfl⟩ | ⟨h, rfl⟩ | ⟨h, rfl⟩
    · exact ⟨fun _ => ⟨h2, h1⟩,
        fun hc => absurd (Option.some.inj hc) (by decide),
        fun hc => absurd (Option.some.inj hc) (by decide)⟩
    · exact ⟨fun hc => absurd (Option.some.inj hc) (by decide),
        fun hc => absurd (Option.some.inj hc) (by decide),
        fun _ => Or.inl h⟩
    · exact ⟨fun hc => absurd (Option.some.inj hc) (by decide),
        fun _ => h,
        fun hc => absurd (Option.some.inj hc) (by decide)⟩
    · exact ⟨fun hc => absurd (Option.some.inj hc) (by decide),
        fun hc => absurd (Option.some.inj hc) (by decide),
        fun _ => Or.inr (Or.inr (Or.inl h))⟩
    · exact ⟨fun hc => absurd (Option.some.inj hc) (by decide),
        fun hc => absurd (Option.some.inj hc) (by decide),
        fun _ => Or.inr (Or.inr (Or.inr h))⟩
    · exact ⟨fun hc => absurd (Option.some.inj hc) (by decide),
        fun hc => absurd (Option.some.inj hc) (by decide),
        fun _ => Or.inr (Or.inl h)⟩

/-- Witness for the amended C1: a header under "hello" lands under the
include directory. -/
theorem shiny_package_layout_witness :
    ∃ d ∈ packageDests ⟨false⟩ (SrcFile.mk ["hello"] "a.h"),
      d.head? = some "include" :=
  (shiny_package_layout ⟨false⟩ ⟨["hello"], "a.h"⟩).1 (by decide) (by decide)

/-- Claim C9: the header copy rule selects header files only from the
"hello" subdirectory: a header file outside that subdirectory is left out
of the packaged include directory. -/
theorem shiny_headers_only_from_hello (o : Opts) (f : SrcFile)
    (_hb : endsWithS f.base ".h" = true)
    (hd : dirUnder ["hello"] f.dirs = false) :
    (packageDests o f).all (fun d => !(d.head? == some "include")) = true := by
  rw [List.all_eq_true]
  intro d hdm
  rw [mem_packageDests] at hdm
  rcases hdm with ⟨h1, _, rfl⟩ | ⟨_, rfl⟩ | ⟨_, rfl⟩ | ⟨_, rfl⟩ | ⟨_, rfl⟩ | ⟨_, rfl⟩
  · rw [h1] at hd
    exact Bool.noConfusion hd
  all_goals exact rfl

/-- Witness for C9: the header "y.h" under the directory "src" gains no
destination under include. -/
theorem shiny_headers_only_from_hello_witness :
    (packageDests ⟨false⟩ (SrcFile.mk ["src"] "y.h")).all
      (fun d => !(d.head? == some "include")) = true :=
  shiny_headers_only_from_hello ⟨false⟩ ⟨["src"], "y.h"⟩ (by decide) (by decide)

/-- Claim C3: a recipe invocation succeeds exactly when every one of its
actions succeeds; any failing action is reported as the failure of the
whole invocation, and no action is ever attempted more often than it
occurs in the recipe (no retry, no partial success, no recovery). -/
theorem shiny_failure_hard (o : Opts) (ok : RecipeAction → Bool) :
    (runRecipe o ok = Except.ok () ↔
       ∀ a ∈ ShinyConan.recipeActions o, ok a = true)
  ∧ (∀ a, runRecipe o ok = Except.error a →
       a ∈ ShinyConan.recipeActions o ∧ ok a = false)
  ∧ (∀ a, (attemptsOf ok (ShinyConan.recipeActions o)).count a ≤
       (ShinyConan.recipeActions o).count a) :=
  ⟨runActs_ok_iff ok _, fun a h => runActs_error ok _ a h,
   fun a => attemptsOf_count ok _ a⟩

/-- Witness for C3: under an environment in which MSBuild fails, the whole
invocation fails, reporting the build action, which the theorem then
places inside the recipe with a false environment verdict. -/
theorem shiny_failure_hard_witness :
    RecipeAction.msbuild "shiny.sln" ∈ ShinyConan.recipeActions ⟨false⟩
  ∧ (fun a => !(a == RecipeAction.msbuild "shiny.sln"))
      (RecipeAction.msbuild "shiny.sln") = false :=
  (shiny_failure_hard ⟨false⟩
      (fun a => !(a == RecipeAction.msbuild "shiny.sln"))).2.1
    (RecipeAction.msbuild "shiny.sln") rfl

/-- Claim C7 as stated is false on the code: the metadata attributes of
the class are not only the name/version/license/url quadruple, because the
class also sets a description string (line 9). -/
theorem shiny_metadata_quadruple_cex :
    ShinyConan.metaAttrsOf ⟨false⟩ ≠
      [("name", "shiny"), ("version", "0.1"), ("license", "MIT"),
       ("url", "https://github.com/wagk/shiny.git")] := by
  decide

/-- Claim C7 (amended): the recipe's package metadata is exactly the
name/version/license/url/description quintuple of strings with the values
written in the source, and it is the same for every option assignment. -/
theorem shiny_metadata_quintuple (o o' : Opts) :
    ShinyConan.metaAttrsOf o =
      [("name", "shiny"), ("version", "0.1"), ("license", "MIT"),
       ("url", "https://github.com/wagk/shiny.git"),
       ("description", "Simple Vulkan Game Engine")]
  ∧ ShinyConan.metaAttrsOf o = ShinyConan.metaAttrsOf o' :=
  ⟨rfl, rfl⟩

/-- Witness for the amended C7: the metadata at the two option
assignments. -/
theorem shiny_metadata_quintuple_witness :
    ShinyConan.metaAttrsOf ⟨false⟩ = ShinyConan.metaAttrsOf ⟨true⟩ :=
  (shiny_metadata_quintuple ⟨false⟩ ⟨true⟩).2

/-- Claim C10: the recipe exposes exactly one configurable option, the
boolean "shared" restricted to True and False with default False, and
every step of the recipe is unchanged under any option assignment (no
step reads or changes the option). -/
theorem shiny_single_shared_option (o o' : Opts) :
    ShinyConan.optionsDecl = [("shared", [true, false])]
  ∧ ShinyConan.optionsDecl.length = 1
  ∧ ShinyConan.defaultOptions = [("shared", false)]
  ∧ ShinyConan.requirements o = ShinyConan.requirements o'
  ∧ ShinyConan.source o = ShinyConan.source o'
  ∧ ShinyConan.build o = ShinyConan.build o'
  ∧ ShinyConan.packageRulesOf o = ShinyConan.packageRulesOf o'
  ∧ ShinyConan.cpp_info_libs o = ShinyConan.cpp_info_libs o' :=
  ⟨rfl, rfl, rfl, rfl, rfl, rfl, rfl, rfl⟩

/-- Witness for C10: step invariance between the two option
assignments. -/
theorem shiny_single_shared_option_witness :
    ShinyConan.requirements ⟨false⟩ = ShinyConan.requirements ⟨true⟩
  ∧ ShinyConan.packageRulesOf ⟨false⟩ = ShinyConan.packageRulesOf ⟨true⟩ :=
  ⟨(shiny_single_shared_option ⟨false⟩ ⟨true⟩).2.2.2.1,
   (shiny_single_shared_option ⟨false⟩ ⟨true⟩).2.2.2.2.2.2.1⟩
